import Mathlib

/-!
# go-recaptcha: the verifier and its test server

A shallow embedding of `recaptcha.go` (package `recaptcha`) and of
`recaptchatest/recaptchatest.go` (package `recaptchatest`).

Conventions of the embedding.

* A Go `error` is a `String`; a `(value, error)` result is an `Except String _`.
* A Go `map[string]T` is an association list read with `List.lookup`; a `nil`
  map is `none`.
* A `*TokenData` is `Option Nat`: `none` is the nil pointer, `some p` is the
  address of the record `records[p]` of the server state.  Two table entries may
  hold the same address, as `GenerateToken` accepts any pointer.
* `time.Time` is an `Int` (nanoseconds); a `float64` is the `Nat` of its bits.
* Library calls whose result the code only passes along (`uuid.NewRandom`,
  `http.NewRequest`, `http.Client.Do`, `json.Marshal`, `json.Unmarshal`,
  `Request.ParseForm`, `time.Now`) are inputs of the functions that make them.
* A run-time panic is `none`.
-/

namespace url

/-- Values is `url.Values`, a `map[string][]string`. -/
abbrev Values := List (String × List String)

/-- Get is `Values.Get`: the first value stored under the key, or the empty string. -/
def Values.Get (v : Values) (key : String) : String :=
  match v.lookup key with
  | some (x :: _) => x
  | _ => ""

/-- Set is `Values.Set`: the key now holds exactly the one value. -/
def Values.Set (v : Values) (key value : String) : Values :=
  (key, [value]) :: v.filter (fun e => e.1 != key)

end url

namespace recaptcha

/-- RecaptchaResponse is the reply of the "siteverify" endpoint. -/
structure RecaptchaResponse where
  Success : Bool
  Score : Nat
  Action : String
  ChallengeTS : Int
  Hostname : String
  ErrorCodes : List String
deriving DecidableEq, Repr

/-- The zero value, as made by `new(RecaptchaResponse)`. -/
def RecaptchaResponse.zero : RecaptchaResponse :=
  { Success := false, Score := 0, Action := "", ChallengeTS := 0, Hostname := "", ErrorCodes := [] }

/-- Recaptcha holds the configuration of a verifier (the `httpClient` field is
the zero `http.Client`; its behaviour is the `Transport` below). -/
structure Recaptcha where
  VerifyEndpoint : String
  PrivateKey : String
deriving DecidableEq, Repr

/-- DefaultVerifyEndpoint is the production endpoint. -/
def DefaultVerifyEndpoint : String := "https://www.google.com/recaptcha/api/siteverify"

/-- New creates a verifier: `new(Recaptcha)` with the private key stored. -/
def New (privateKey : String) : Recaptcha :=
  { VerifyEndpoint := "", PrivateKey := privateKey }

/-- An outgoing `http.Request`, as far as `check` touches it. -/
structure HttpRequest where
  Method : String
  URL : String
  Body : String
  Header : url.Values
deriving DecidableEq, Repr

/-- An `http.Response`; `Body` is what reading the body to its end yields. -/
structure HttpResponse where
  StatusCode : Nat
  Body : Except String String

/-- The library calls made by `check`, over a world `σ` that `Do` may change. -/
structure Transport (σ : Type) where
  Encode : url.Values → String
  NewRequest : String → String → String → Except String HttpRequest
  Do : σ → HttpRequest → Except String HttpResponse × σ
  Unmarshal : String → RecaptchaResponse → Except String RecaptchaResponse

/-- The endpoint `check` posts to (lines 49-53). -/
def checkVerifyEndpoint (r : Recaptcha) : String :=
  if r.VerifyEndpoint = "" then DefaultVerifyEndpoint else r.VerifyEndpoint

/-- The form parameters `check` builds (lines 55-60). -/
def checkPostParameters (r : Recaptcha) (remoteIP response : String) : url.Values :=
  let postParameters : url.Values := []
  let postParameters := postParameters.Set "secret" r.PrivateKey
  let postParameters := postParameters.Set "response" response
  if remoteIP ≠ "" then postParameters.Set "remoteip" remoteIP else postParameters

/-- The method `Recaptcha.check`. -/
def check {σ : Type} (T : Transport σ) (r : Recaptcha) (w : σ) (remoteIP response : String) :
    Except String RecaptchaResponse × σ :=
  let verifyEndpoint := checkVerifyEndpoint r
  let postParameters := checkPostParameters r remoteIP response
  match T.NewRequest "POST" verifyEndpoint (T.Encode postParameters) with
  | .error err => (.error err, w)
  | .ok httpRequest =>
    let httpRequest :=
      { httpRequest with
        Header := httpRequest.Header.Set "Content-Type" "application/x-www-form-urlencoded" }
    match T.Do w httpRequest with
    | (.error err, w1) => (.error err, w1)
    | (.ok httpResponse, w1) =>
      match httpResponse.Body with
      | .error err => (.error err, w1)
      | .ok contents =>
        match T.Unmarshal contents RecaptchaResponse.zero with
        | .error err => (.error err, w1)
        | .ok recaptchaResponse => (.ok recaptchaResponse, w1)

/-- The method `Recaptcha.Verify`; the result is `(success, err)`, `none` being a nil error. -/
def Verify {σ : Type} (T : Transport σ) (r : Recaptcha) (w : σ) (response : String) :
    (Bool × Option String) × σ :=
  let remoteIP := ""
  match check T r w remoteIP response with
  | (.error err, w1) => ((false, some err), w1)
  | (.ok recaptchaResponse, w1) => ((recaptchaResponse.Success, none), w1)

/-- The method `Recaptcha.VerifyRemoteIP`. -/
def VerifyRemoteIP {σ : Type} (T : Transport σ) (r : Recaptcha) (w : σ)
    (remoteIP response : String) : (Bool × Option String) × σ :=
  match check T r w remoteIP response with
  | (.error err, w1) => ((false, some err), w1)
  | (.ok recaptchaResponse, w1) => ((recaptchaResponse.Success, none), w1)

/-- A transport for the examples.  Every request is built; the endpoint
"0.0.0.1/bogus/path" cannot be reached; any other endpoint answers with a body
that decodes to a failed verification carrying an error code and a score.
The world counts the requests sent. -/
def demoTransport : Transport Nat :=
  { Encode := fun v => String.join (v.map (fun e => e.1))
    NewRequest := fun method target body =>
      .ok { Method := method, URL := target, Body := body, Header := [] }
    Do := fun w httpRequest =>
      if httpRequest.URL = "0.0.0.1/bogus/path" then
        (.error "unsupported protocol scheme", w + 1)
      else (.ok { StatusCode := 200, Body := .ok "reply" }, w + 1)
    Unmarshal := fun contents dst =>
      if contents = "reply" then
        .ok { dst with Success := false, Score := 7, ErrorCodes := ["invalid-input-secret"] }
      else .error "invalid character" }

/-- The verifier of the "Bogus site" test. -/
def bogusRecaptcha : Recaptcha :=
  { VerifyEndpoint := "0.0.0.1/bogus/path", PrivateKey := "my-private-key" }

end recaptcha

namespace recaptchatest

open recaptcha

/-- TokenData is the data for a token. -/
structure TokenData where
  Used : Bool
  RemoteIP : String
  ExpirationDate : Int
deriving DecidableEq, Repr

/-- Site is a reCAPTCHA site; `tokens` maps a token to the address of its record. -/
structure Site where
  PublicKey : String
  PrivateKey : String
  tokens : Option (List (String × Option Nat))
deriving DecidableEq, Repr

/-- Server is the test server: its sites, in registration order, and the
`TokenData` records their tables point to. -/
structure Server where
  URL : String
  sites : List Site
  records : List TokenData
deriving DecidableEq, Repr

/-- An incoming request: its Content-Type header and the outcome of
`r.ParseForm()`: the parsed form, or `none` when it returns an error.  The
closure reads the fields of a request only after `ParseForm` succeeded, so a
request whose form does not parse has no field here. -/
structure Request where
  ContentType : String
  Form : Option url.Values
deriving DecidableEq, Repr

/-- FormValue is `r.FormValue(key)` after `ParseForm`: the first value of the
key, or the empty string when the key is absent. -/
def Request.FormValue (r : Request) (key : String) : String :=
  match r.Form with
  | some form => form.Get key
  | none => ""

def StatusOK : Nat := 200
def StatusBadRequest : Nat := 400
def StatusInternalServerError : Nat := 500

/-- The method `Server.getSiteByPublicKey`. -/
def Server.getSiteByPublicKey (s : Server) (publicKey : String) : Option Site :=
  s.sites.find? (fun site => site.PublicKey == publicKey)

/-- The method `Server.getSiteByPrivateKey`: the first site with the key, else nil. -/
def Server.getSiteByPrivateKey (s : Server) (privateKey : String) : Option Site :=
  s.sites.find? (fun site => site.PrivateKey == privateKey)

/-- The map read `site.tokens[token]`; reading a nil map finds nothing. -/
def Site.lookup (site : Site) (token : String) : Option (Option Nat) :=
  match site.tokens with
  | none => none
  | some m => m.lookup token

/-- Reading through a `*TokenData`; `none` is the nil-pointer panic. -/
def Server.deref (s : Server) (ptr : Option Nat) : Option TokenData :=
  match ptr with
  | none => none
  | some p => s.records[p]?

/-- The assignment `tokenData.Used = true` through the pointer `p`. -/
def Server.setUsed (s : Server) (p : Nat) : Server :=
  { s with records := s.records.modify (fun td => { td with Used := true }) p }

/-- The closure of lines 45-97, which the handler runs on a form-urlencoded
request: the status code and the result, and the server afterwards. -/
def siteverify (s : Server) (now : Int) (r : Request) :
    Option (Nat × RecaptchaResponse) × Server :=
  let recaptchaResponse : RecaptchaResponse :=
    { RecaptchaResponse.zero with Success := false, ChallengeTS := now }
  let fail (code : String) : Option (Nat × RecaptchaResponse) × Server :=
    (some (StatusOK,
      { recaptchaResponse with ErrorCodes := recaptchaResponse.ErrorCodes ++ [code] }), s)
  match r.Form with
  | none => fail "bad-request"
  | some _ =>
    let privateKey := r.FormValue "secret"
    let token := r.FormValue "response"
    let remoteIP := r.FormValue "remoteip"
    if privateKey = "" then fail "missing-input-secret"
    else
      match s.getSiteByPrivateKey privateKey with
      | none => fail "invalid-input-secret"
      | some site =>
        if token = "" then fail "missing-input-response"
        else
          match site.lookup token with
          | none => fail "invalid-input-response"
          | some ptr =>
            match ptr, s.deref ptr with
            | some p, some tokenData =>
              if tokenData.Used then fail "timeout-or-duplicate"
              else
                let s1 := s.setUsed p
                if remoteIP ≠ "" ∧ tokenData.RemoteIP ≠ remoteIP then
                  (some (StatusOK, recaptchaResponse), s1)
                else
                  (some (StatusOK, { recaptchaResponse with Success := true }), s1)
            -- `tokenData.Used` through a nil pointer: the closure panics
            | _, _ => (none, s)

/-- What the handler wrote: the status and the body, if any. -/
structure Reply where
  status : Nat
  body : Option String
deriving DecidableEq, Repr

/-- The handler of "/recaptcha/api/siteverify" (lines 39-107); `marshal` is
`json.Marshal`.  A panic of the closure leaves no reply. -/
def handler (marshal : RecaptchaResponse → Except String String)
    (s : Server) (now : Int) (r : Request) : Option Reply × Server :=
  if r.ContentType ≠ "application/x-www-form-urlencoded" then
    (some { status := StatusBadRequest, body := none }, s)
  else
    match siteverify s now r with
    | (none, s1) => (none, s1)
    | (some (statusCode, recaptchaResponse), s1) =>
      match marshal recaptchaResponse with
      | .error _ => (some { status := StatusInternalServerError, body := none }, s1)
      | .ok payload => (some { status := statusCode, body := some payload }, s1)

/-- NewServer's state: no site yet (`url` is the address `httptest` listens on). -/
def NewServer (url : String) : Server :=
  { URL := url, sites := [], records := [] }

/-- The method `Server.VerifyEndpoint`. -/
def Server.VerifyEndpoint (s : Server) : String :=
  s.URL ++ "/recaptcha/api/siteverify"

/-- The method `Server.NewSite`; `u1`, `u2` are the two results of
`uuid.NewRandom()`, as strings.  The new site is the last of `sites`. -/
def Server.NewSite (s : Server) (u1 u2 : Except String String) : Option (Server × Site) :=
  match u1 with
  | .error _ => none
  | .ok publicKey =>
    match u2 with
    | .error _ => none
    | .ok privateKey =>
      let site : Site := { PublicKey := publicKey, PrivateKey := privateKey, tokens := none }
      some ({ s with sites := s.sites ++ [site] }, site)

/-- The map write `m[token] = tokenData`. -/
def mapStore (m : List (String × Option Nat)) (token : String) (tokenData : Option Nat) :
    List (String × Option Nat) :=
  (token, tokenData) :: m.filter (fun e => e.1 != token)

/-- The method `Site.GenerateToken`; `u` is the result of `uuid.NewRandom()`. -/
def Site.GenerateToken (site : Site) (tokenData : Option Nat) (u : Except String String) :
    Option (Site × String) :=
  match u with
  | .error _ => none
  | .ok token =>
    let tokens := match site.tokens with
      | none => []
      | some m => m
    some ({ site with tokens := some (mapStore tokens token tokenData) }, token)

/-- GenerateToken on the site registered at index `i` of the server. -/
def Server.GenerateToken (s : Server) (i : Nat) (tokenData : Option Nat)
    (u : Except String String) : Option (Server × String) :=
  match s.sites[i]? with
  | none => none
  | some site =>
    match site.GenerateToken tokenData u with
    | none => none
    | some (site1, token) => some ({ s with sites := s.sites.set i site1 }, token)

/-- Two minutes, in nanoseconds. -/
def twoMinutes : Int := 2 * 60 * 1000000000

/-- The method `Site.NewResponseTokenRemoteIP` on the site at index `i`: a new
record is allocated, then stored under a new token. -/
def Server.NewResponseTokenRemoteIP (s : Server) (i : Nat) (now : Int) (remoteIP : String)
    (u : Except String String) : Option (Server × String) :=
  let tokenData : TokenData :=
    { Used := false, RemoteIP := remoteIP, ExpirationDate := now + twoMinutes }
  let s1 : Server := { s with records := s.records ++ [tokenData] }
  s1.GenerateToken i (some s.records.length) u

/-- The method `Site.NewResponseToken` on the site at index `i`. -/
def Server.NewResponseToken (s : Server) (i : Nat) (now : Int) (u : Except String String) :
    Option (Server × String) :=
  let tokenData : TokenData :=
    { Used := false, RemoteIP := "", ExpirationDate := now + twoMinutes }
  let s1 : Server := { s with records := s.records ++ [tokenData] }
  s1.GenerateToken i (some s.records.length) u

/-- Handling requests one after another: the replies, in order, and the final state. -/
def serve (s : Server) : List (Int × Request) → List (Option (Nat × RecaptchaResponse)) × Server
  | [] => ([], s)
  | (now, r) :: rest =>
    let out := siteverify s now r
    let tail := serve out.2 rest
    (out.1 :: tail.1, tail.2)

/-! ## Notions used to state the properties -/

/-- A result with `Success == false` and the one error code, as every failing
branch of the closure builds it. -/
def failure (now : Int) (code : String) : RecaptchaResponse :=
  { Success := false, Score := 0, Action := "", ChallengeTS := now, Hostname := "",
    ErrorCodes := [code] }

/-- Keys as the package generates them: the private key of every registered
site and every token of a table is the text of a UUID, hence not empty. -/
def Server.WF (s : Server) : Prop :=
  ∀ site ∈ s.sites, site.PrivateKey ≠ "" ∧ site.lookup "" = none

instance (s : Server) : Decidable s.WF := by unfold Server.WF; infer_instance

/-- No two registered sites have the same private key. -/
def Server.KeysDistinct (s : Server) : Prop :=
  (s.sites.map Site.PrivateKey).Nodup

instance (s : Server) : Decidable s.KeysDistinct := by unfold Server.KeysDistinct; infer_instance

/-- The token named with the secret has a record that is there and not used yet. -/
def Server.fresh (s : Server) (secret token : String) : Bool :=
  match s.getSiteByPrivateKey secret with
  | none => false
  | some site =>
    match site.lookup token with
    | some (some p) =>
      match s.records[p]? with
      | some tokenData => !tokenData.Used
      | none => false
    | _ => false

/-- The request was answered, with `success == true`. -/
def succeeded : Option (Nat × RecaptchaResponse) → Bool
  | some (_, recaptchaResponse) => recaptchaResponse.Success
  | none => false

/-- The request names the secret and the response token. -/
def Request.names (r : Request) (secret token : String) : Bool :=
  r.FormValue "secret" == secret && r.FormValue "response" == token

/-- How many requests of the sequence name the secret and the token and are
answered with success. -/
def successes (secret token : String) (s : Server) (reqs : List (Int × Request)) : Nat :=
  ((serve s reqs).1.zip reqs).countP (fun e => succeeded e.1 && e.2.2.names secret token)

/-! ## Concrete states and requests -/

/-- A form-urlencoded request with the three fields. -/
def formRequest (secret token remoteIP : String) : Request :=
  { ContentType := "application/x-www-form-urlencoded"
    Form := some [("secret", [secret]), ("response", [token]), ("remoteip", [remoteIP])] }

/-- A site with an unbound token, a token bound to 1.2.3.4 and a used token. -/
def demoSiteA : Site :=
  { PublicKey := "pub-a", PrivateKey := "key-a"
    tokens := some [("tok-1", some 0), ("tok-2", some 1), ("tok-3", some 2)] }

/-- A site as `NewSite` leaves it: no token issued, the table still nil. -/
def demoSiteB : Site :=
  { PublicKey := "pub-b", PrivateKey := "key-b", tokens := none }

/-- A server with the two sites. -/
def demoServer : Server :=
  { URL := "http://127.0.0.1:1"
    sites := [demoSiteA, demoSiteB]
    records := [⟨false, "", 120⟩, ⟨false, "1.2.3.4", 120⟩, ⟨true, "", 120⟩] }

/-- The server right after `NewServer` and one `NewSite`. -/
def oneSiteServer : Server :=
  { URL := "http://127.0.0.1:1", sites := [demoSiteB], records := [] }

/-- The state with every expiration date put to zero: what is left when the
expiration dates are disregarded. -/
def Server.eraseExpiration (s : Server) : Server :=
  { s with records := s.records.map (fun td => { td with ExpirationDate := 0 }) }

/-- The error codes the closure can give. -/
def errorCodes : List String :=
  ["bad-request", "missing-input-secret", "invalid-input-secret", "missing-input-response",
    "invalid-input-response", "timeout-or-duplicate"]

/-- The checks of the endpoint in the order the specification lists them
(steps 3 to 7), each with its error code: whether the check fails on the
request.  A check that needs the site or the record of an earlier check is
taken as passed when that is missing. -/
def specChecks (s : Server) (r : Request) : List (Bool × String) :=
  let site := s.getSiteByPrivateKey (r.FormValue "secret")
  let entry := site.bind (fun x => x.lookup (r.FormValue "response"))
  let record := entry.bind (fun ptr => s.deref ptr)
  [ (r.FormValue "secret" == "", "missing-input-secret"),
    (site.isNone, "invalid-input-secret"),
    (r.FormValue "response" == "", "missing-input-response"),
    (site.isSome && entry.isNone, "invalid-input-response"),
    (match record with
      | some tokenData => tokenData.Used
      | none => false, "timeout-or-duplicate") ]

/-- The code of the first check that fails, if one does. -/
def specFirstFailure (s : Server) (r : Request) : Option String :=
  ((specChecks s r).find? (fun c => c.1)).map (fun c => c.2)

/-- The same server as `demoServer`, the expiration dates apart. -/
def demoServerLate : Server :=
  { URL := "http://127.0.0.1:1"
    sites := [demoSiteA, demoSiteB]
    records := [⟨false, "", 0⟩, ⟨false, "1.2.3.4", 999⟩, ⟨true, "", 5⟩] }

/-- A marshaller for the examples: it writes the success flag. -/
def demoMarshal (resp : RecaptchaResponse) : Except String String :=
  .ok (if resp.Success then "true" else "false")

/-! ## The branches of the closure -/

theorem FormValue_of_none {r : Request} (h : r.Form = none) (key : String) :
    r.FormValue key = "" := by
  simp [Request.FormValue, h]

theorem Form_isSome_of_FormValue {r : Request} {key : String} (h : r.FormValue key ≠ "") :
    ∃ form, r.Form = some form := by
  cases hF : r.Form with
  | none => exact absurd (FormValue_of_none hF key) h
  | some form => exact ⟨form, rfl⟩

theorem getSite_key {s : Server} {k : String} {site : Site}
    (h : s.getSiteByPrivateKey k = some site) : site.PrivateKey = k := by
  have := List.find?_some h
  simpa using this

theorem getSite_mem {s : Server} {k : String} {site : Site}
    (h : s.getSiteByPrivateKey k = some site) : site ∈ s.sites :=
  List.mem_of_find?_eq_some h

theorem siteverify_missing_secret (s : Server) (now : Int) (r : Request) (form : url.Values)
    (hF : r.Form = some form) (hk : r.FormValue "secret" = "") :
    siteverify s now r = (some (StatusOK, failure now "missing-input-secret"), s) := by
  simp [siteverify, hF, hk, failure, RecaptchaResponse.zero]

theorem siteverify_invalid_secret (s : Server) (now : Int) (r : Request)
    (hk : r.FormValue "secret" ≠ "") (hs : s.getSiteByPrivateKey (r.FormValue "secret") = none) :
    siteverify s now r = (some (StatusOK, failure now "invalid-input-secret"), s) := by
  obtain ⟨form, hF⟩ := Form_isSome_of_FormValue hk
  simp [siteverify, hF, hk, hs, failure, RecaptchaResponse.zero]

theorem siteverify_missing_response (s : Server) (now : Int) (r : Request) (site : Site)
    (hk : r.FormValue "secret" ≠ "") (hs : s.getSiteByPrivateKey (r.FormValue "secret") = some site)
    (ht : r.FormValue "response" = "") :
    siteverify s now r = (some (StatusOK, failure now "missing-input-response"), s) := by
  obtain ⟨form, hF⟩ := Form_isSome_of_FormValue hk
  simp [siteverify, hF, hk, hs, ht, failure, RecaptchaResponse.zero]

theorem siteverify_invalid_response (s : Server) (now : Int) (r : Request) (site : Site)
    (hk : r.FormValue "secret" ≠ "") (hs : s.getSiteByPrivateKey (r.FormValue "secret") = some site)
    (ht : r.FormValue "response" ≠ "") (hl : site.lookup (r.FormValue "response") = none) :
    siteverify s now r = (some (StatusOK, failure now "invalid-input-response"), s) := by
  obtain ⟨form, hF⟩ := Form_isSome_of_FormValue hk
  simp [siteverify, hF, hk, hs, ht, hl, failure, RecaptchaResponse.zero]

theorem siteverify_used (s : Server) (now : Int) (r : Request) (site : Site) (p : Nat)
    (td : TokenData)
    (hk : r.FormValue "secret" ≠ "") (hs : s.getSiteByPrivateKey (r.FormValue "secret") = some site)
    (ht : r.FormValue "response" ≠ "")
    (hl : site.lookup (r.FormValue "response") = some (some p))
    (hr : s.records[p]? = some td) (hu : td.Used = true) :
    siteverify s now r = (some (StatusOK, failure now "timeout-or-duplicate"), s) := by
  obtain ⟨form, hF⟩ := Form_isSome_of_FormValue hk
  simp [siteverify, hF, hk, hs, ht, hl, Server.deref, hr, hu, failure, RecaptchaResponse.zero]

theorem siteverify_unused (s : Server) (now : Int) (r : Request) (site : Site) (p : Nat)
    (td : TokenData)
    (hk : r.FormValue "secret" ≠ "") (hs : s.getSiteByPrivateKey (r.FormValue "secret") = some site)
    (ht : r.FormValue "response" ≠ "")
    (hl : site.lookup (r.FormValue "response") = some (some p))
    (hr : s.records[p]? = some td) (hu : td.Used = false) :
    siteverify s now r =
      (some (StatusOK,
        { RecaptchaResponse.zero with
          ChallengeTS := now
          Success := decide (r.FormValue "remoteip" = "" ∨ td.RemoteIP = r.FormValue "remoteip") }),
        s.setUsed p) := by
  obtain ⟨form, hF⟩ := Form_isSome_of_FormValue hk
  by_cases hip : r.FormValue "remoteip" = ""
  · simp [siteverify, hF, hk, hs, ht, hl, Server.deref, hr, hu, hip, RecaptchaResponse.zero]
  · by_cases hip2 : td.RemoteIP = r.FormValue "remoteip"
    · simp [siteverify, hF, hk, hs, ht, hl, Server.deref, hr, hu, hip, hip2, RecaptchaResponse.zero]
    · simp [siteverify, hF, hk, hs, ht, hl, Server.deref, hr, hu, hip, hip2, RecaptchaResponse.zero]

theorem siteverify_panic (s : Server) (now : Int) (r : Request) (site : Site) (ptr : Option Nat)
    (hk : r.FormValue "secret" ≠ "") (hs : s.getSiteByPrivateKey (r.FormValue "secret") = some site)
    (ht : r.FormValue "response" ≠ "")
    (hl : site.lookup (r.FormValue "response") = some ptr)
    (hr : s.deref ptr = none) :
    siteverify s now r = (none, s) := by
  obtain ⟨form, hF⟩ := Form_isSome_of_FormValue hk
  cases ptr with
  | none => simp [siteverify, hF, hk, hs, ht, hl, Server.deref]
  | some p =>
    simp only [Server.deref] at hr
    simp [siteverify, hF, hk, hs, ht, hl, Server.deref, hr]

theorem siteverify_bad_request (s : Server) (now : Int) (r : Request) (hF : r.Form = none) :
    siteverify s now r = (some (StatusOK, failure now "bad-request"), s) := by
  simp [siteverify, hF, failure, RecaptchaResponse.zero]

/-- A successful answer comes from the one path that consumes an unused record. -/
theorem siteverify_success_inv (s : Server) (now : Int) (r : Request)
    (h : succeeded (siteverify s now r).1 = true) :
    ∃ site p td, s.getSiteByPrivateKey (r.FormValue "secret") = some site ∧
      site.lookup (r.FormValue "response") = some (some p) ∧
      s.records[p]? = some td ∧ td.Used = false ∧
      (siteverify s now r).2 = s.setUsed p := by
  cases hF : r.Form with
  | none => rw [siteverify_bad_request s now r hF] at h; simp [succeeded, failure, RecaptchaResponse.zero] at h
  | some form =>
    by_cases hk : r.FormValue "secret" = ""
    · rw [siteverify_missing_secret s now r form hF hk] at h; simp [succeeded, failure, RecaptchaResponse.zero] at h
    · cases hs : s.getSiteByPrivateKey (r.FormValue "secret") with
      | none => rw [siteverify_invalid_secret s now r hk hs] at h; simp [succeeded, failure, RecaptchaResponse.zero] at h
      | some site =>
        by_cases ht : r.FormValue "response" = ""
        · rw [siteverify_missing_response s now r site hk hs ht] at h
          simp [succeeded, failure, RecaptchaResponse.zero] at h
        · cases hl : site.lookup (r.FormValue "response") with
          | none =>
            rw [siteverify_invalid_response s now r site hk hs ht hl] at h
            simp [succeeded, failure, RecaptchaResponse.zero] at h
          | some ptr =>
            cases hd : s.deref ptr with
            | none =>
              rw [siteverify_panic s now r site ptr hk hs ht hl hd] at h
              simp [succeeded] at h
            | some td =>
              cases ptr with
              | none => simp [Server.deref] at hd
              | some p =>
                simp only [Server.deref] at hd
                cases hu : td.Used with
                | true =>
                  rw [siteverify_used s now r site p td hk hs ht hl hd hu] at h
                  simp [succeeded, failure, RecaptchaResponse.zero] at h
                | false =>
                  refine ⟨site, p, td, rfl, hl, hd, hu, ?_⟩
                  rw [siteverify_unused s now r site p td hk hs ht hl hd hu]

/-- The state after a request is the state before, or that state with one record consumed. -/
theorem siteverify_state (s : Server) (now : Int) (r : Request) :
    (siteverify s now r).2 = s ∨ ∃ p, (siteverify s now r).2 = s.setUsed p := by
  cases hF : r.Form with
  | none => rw [siteverify_bad_request s now r hF]; exact Or.inl rfl
  | some form =>
    by_cases hk : r.FormValue "secret" = ""
    · rw [siteverify_missing_secret s now r form hF hk]; exact Or.inl rfl
    · cases hs : s.getSiteByPrivateKey (r.FormValue "secret") with
      | none => rw [siteverify_invalid_secret s now r hk hs]; exact Or.inl rfl
      | some site =>
        by_cases ht : r.FormValue "response" = ""
        · rw [siteverify_missing_response s now r site hk hs ht]; exact Or.inl rfl
        · cases hl : site.lookup (r.FormValue "response") with
          | none => rw [siteverify_invalid_response s now r site hk hs ht hl]; exact Or.inl rfl
          | some ptr =>
            cases hd : s.deref ptr with
            | none => rw [siteverify_panic s now r site ptr hk hs ht hl hd]; exact Or.inl rfl
            | some td =>
              cases ptr with
              | none => simp [Server.deref] at hd
              | some p =>
                simp only [Server.deref] at hd
                cases hu : td.Used with
                | true =>
                  rw [siteverify_used s now r site p td hk hs ht hl hd hu]; exact Or.inl rfl
                | false =>
                  rw [siteverify_unused s now r site p td hk hs ht hl hd hu]
                  exact Or.inr ⟨p, rfl⟩

theorem setUsed_sites (s : Server) (p : Nat) : (s.setUsed p).sites = s.sites := rfl

theorem setUsed_records_used (s : Server) (p q : Nat) (td : TokenData)
    (h : s.records[q]? = some td) (hu : td.Used = true) :
    ∃ td1, (s.setUsed p).records[q]? = some td1 ∧ td1.Used = true := by
  simp only [Server.setUsed, List.getElem?_modify, h]
  by_cases hpq : p = q
  · exact ⟨{ td with Used := true }, by simp [hpq], rfl⟩
  · exact ⟨td, by simp [hpq], hu⟩

theorem setUsed_records_none (s : Server) (p q : Nat) (h : s.records[q]? = none) :
    (s.setUsed p).records[q]? = none := by
  simp [Server.setUsed, List.getElem?_modify, h]

theorem setUsed_records_self (s : Server) (p : Nat) (td : TokenData)
    (h : s.records[p]? = some td) :
    (s.setUsed p).records[p]? = some { td with Used := true } := by
  simp [Server.setUsed, List.getElem?_modify, h]

/-- Consuming a record never makes a consumed token fresh again. -/
theorem fresh_setUsed (s : Server) (p : Nat) (secret token : String)
    (h : s.fresh secret token = false) : (s.setUsed p).fresh secret token = false := by
  unfold Server.fresh at h ⊢
  have hsite : (s.setUsed p).getSiteByPrivateKey secret = s.getSiteByPrivateKey secret := rfl
  rw [hsite]
  cases hs : s.getSiteByPrivateKey secret with
  | none => rfl
  | some site =>
    rw [hs] at h
    simp only at h ⊢
    cases hl : site.lookup token with
    | none => rfl
    | some ptr =>
      cases ptr with
      | none => rfl
      | some q =>
        rw [hl] at h
        simp only at h ⊢
        cases hq : s.records[q]? with
        | none => rw [setUsed_records_none s p q hq]
        | some td =>
          rw [hq] at h
          simp only [Bool.not_eq_false'] at h
          obtain ⟨td1, h1, h2⟩ := setUsed_records_used s p q td hq h
          rw [h1]
          simp [h2]

theorem fresh_step (s : Server) (now : Int) (r : Request) (secret token : String)
    (h : s.fresh secret token = false) : (siteverify s now r).2.fresh secret token = false := by
  rcases siteverify_state s now r with h1 | ⟨p, h1⟩
  · rw [h1]; exact h
  · rw [h1]; exact fresh_setUsed s p secret token h

theorem fresh_of_success (s : Server) (now : Int) (r : Request)
    (h : succeeded (siteverify s now r).1 = true) :
    s.fresh (r.FormValue "secret") (r.FormValue "response") = true ∧
    (siteverify s now r).2.fresh (r.FormValue "secret") (r.FormValue "response") = false := by
  obtain ⟨site, p, td, hs, hl, hr, hu, hst⟩ := siteverify_success_inv s now r h
  constructor
  · simp [Server.fresh, hs, hl, hr, hu]
  · rw [hst]
    have hsite : (s.setUsed p).getSiteByPrivateKey (r.FormValue "secret") = some site := hs
    simp [Server.fresh, hsite, hl, setUsed_records_self s p td hr]

theorem successes_bound (secret token : String) (reqs : List (Int × Request)) :
    ∀ s : Server, successes secret token s reqs ≤ 1 ∧
      (s.fresh secret token = false → successes secret token s reqs = 0) := by
  induction reqs with
  | nil => intro s; simp [successes, serve]
  | cons a rest ih =>
    intro s
    obtain ⟨now, r⟩ := a
    have hunf : successes secret token s ((now, r) :: rest) =
        successes secret token (siteverify s now r).2 rest +
          if (succeeded (siteverify s now r).1 && r.names secret token) = true then 1 else 0 := by
      simp [successes, serve, List.countP_cons]
    rw [hunf]
    obtain ⟨ih1, ih2⟩ := ih (siteverify s now r).2
    by_cases hc : (succeeded (siteverify s now r).1 && r.names secret token) = true
    · simp only [hc, if_true]
      simp only [Bool.and_eq_true, Request.names, beq_iff_eq] at hc
      obtain ⟨hsucc, hk, ht⟩ := hc
      obtain ⟨hf1, hf2⟩ := fresh_of_success s now r hsucc
      rw [hk, ht] at hf1 hf2
      have h0 := ih2 hf2
      constructor
      · omega
      · intro hnf; rw [hnf] at hf1; cases hf1
    · simp only [hc, if_false, Nat.add_zero, Bool.false_eq_true]
      exact ⟨ih1, fun hnf => ih2 (fresh_step s now r secret token hnf)⟩

theorem wf_secret {s : Server} {k : String} {site : Site} (hwf : s.WF)
    (hs : s.getSiteByPrivateKey k = some site) : k ≠ "" := by
  have h1 := (hwf site (getSite_mem hs)).1
  rwa [getSite_key hs] at h1

theorem wf_token {s : Server} {k t : String} {site : Site} {ptr : Option Nat} (hwf : s.WF)
    (hs : s.getSiteByPrivateKey k = some site) (hl : site.lookup t = some ptr) : t ≠ "" := by
  intro h
  have h1 := (hwf site (getSite_mem hs)).2
  rw [h, h1] at hl
  cases hl

theorem getSite_none {s : Server} {k : String}
    (h : ∀ site ∈ s.sites, site.PrivateKey ≠ k) : s.getSiteByPrivateKey k = none := by
  unfold Server.getSiteByPrivateKey
  rw [List.find?_eq_none]
  intro site hm
  simpa using h site hm

theorem find_of_nodup (l : List Site) (site : Site)
    (hd : (l.map Site.PrivateKey).Nodup) (hm : site ∈ l) :
    l.find? (fun x => x.PrivateKey == site.PrivateKey) = some site := by
  induction l with
  | nil => cases hm
  | cons a rest ih =>
    rw [List.map_cons, List.nodup_cons] at hd
    rcases List.mem_cons.mp hm with h | h
    · subst h; simp
    · have hne : a.PrivateKey ≠ site.PrivateKey := by
        intro he
        exact hd.1 (he ▸ List.mem_map_of_mem Site.PrivateKey h)
      rw [List.find?_cons_of_neg _ (by simpa using hne)]
      exact ih hd.2 h

theorem getSite_of_distinct {s : Server} {site : Site} (hd : s.KeysDistinct)
    (hm : site ∈ s.sites) : s.getSiteByPrivateKey site.PrivateKey = some site :=
  find_of_nodup s.sites site hd hm

theorem lookup_filter_ne (m : List (String × Option Nat)) (k token : String) (h : k ≠ token) :
    (m.filter (fun e => e.1 != token)).lookup k = m.lookup k := by
  induction m with
  | nil => rfl
  | cons a rest ih =>
    obtain ⟨a1, a2⟩ := a
    by_cases hat : a1 = token
    · subst hat
      have hka : (k == a1) = false := by simp [h]
      simp [List.filter_cons, List.lookup_cons, hka, ih]
    · by_cases hka : k = a1
      · simp [List.filter_cons, hat, List.lookup_cons, hka]
      · have hka1 : (k == a1) = false := by simp [hka]
        simp [List.filter_cons, hat, List.lookup_cons, hka1, ih]

theorem NewServer_WF (url : String) : (NewServer url).WF := by
  intro site hm
  simp [NewServer] at hm

theorem NewSite_WF (s s1 : Server) (site : Site) (publicKey privateKey : String)
    (hwf : s.WF) (hk : privateKey ≠ "")
    (h : s.NewSite (.ok publicKey) (.ok privateKey) = some (s1, site)) : s1.WF := by
  simp only [Server.NewSite, Option.some.injEq, Prod.mk.injEq] at h
  obtain ⟨h1, h2⟩ := h
  subst h1
  intro x hx
  rcases List.mem_append.mp hx with hx | hx
  · exact hwf x hx
  · simp only [List.mem_singleton] at hx
    subst hx
    exact ⟨hk, rfl⟩

theorem GenerateToken_WF (s s1 : Server) (i : Nat) (tokenData : Option Nat) (token t : String)
    (hwf : s.WF) (ht : token ≠ "")
    (h : s.GenerateToken i tokenData (.ok token) = some (s1, t)) : s1.WF := by
  unfold Server.GenerateToken at h
  cases hsi : s.sites[i]? with
  | none => simp [hsi] at h
  | some site =>
    simp only [hsi, Site.GenerateToken, Option.some.injEq, Prod.mk.injEq] at h
    obtain ⟨h1, _⟩ := h
    subst h1
    have hin : site ∈ s.sites := List.getElem?_mem hsi
    intro x hx
    rcases List.mem_or_eq_of_mem_set hx with hx | hx
    · exact hwf x hx
    · subst hx
      refine ⟨(hwf site hin).1, ?_⟩
      have h0 := (hwf site hin).2
      have hne : ("" : String) ≠ token := fun e => ht e.symm
      have hb : (("" : String) == token) = false := by simp [hne]
      cases htk : site.tokens with
      | none => simp [Site.lookup, mapStore, List.lookup_cons, hb]
      | some m =>
        simp only [Site.lookup, htk] at h0
        simp only [Site.lookup, mapStore, List.lookup_cons, hb]
        rw [lookup_filter_ne m "" token hne]
        exact h0

theorem siteverify_WF (s : Server) (now : Int) (r : Request) (hwf : s.WF) :
    (siteverify s now r).2.WF := by
  rcases siteverify_state s now r with h | ⟨p, h⟩
  · rw [h]; exact hwf
  · rw [h]; exact hwf

/-! ## One-time consumption -/

/-- C1: from every state and over every finite sequence of verification
requests handled one after another, at most one of the requests that name a
given secret and a given response token is answered with success. -/
theorem at_most_one_success (s : Server) (reqs : List (Int × Request)) (secret token : String) :
    successes secret token s reqs ≤ 1 :=
  (successes_bound secret token reqs s).1

/-- C2: when the token of the request is in the table of the site matched by
the secret and its record is already used, the answer is success=false with
the error codes exactly "timeout-or-duplicate", whatever the remote IP, and
the state (every site, every record) is unchanged. -/
theorem used_token_is_duplicate (s : Server) (now : Int) (r : Request) (site : Site) (p : Nat)
    (td : TokenData) (hwf : s.WF)
    (hs : s.getSiteByPrivateKey (r.FormValue "secret") = some site)
    (hl : site.lookup (r.FormValue "response") = some (some p))
    (hr : s.records[p]? = some td) (hu : td.Used = true) :
    ∃ resp, siteverify s now r = (some (StatusOK, resp), s) ∧
      resp.Success = false ∧ resp.ErrorCodes = ["timeout-or-duplicate"] :=
  ⟨failure now "timeout-or-duplicate",
    siteverify_used s now r site p td (wf_secret hwf hs) hs (wf_token hwf hs hl) hl hr hu,
    rfl, rfl⟩

theorem used_token_is_duplicate_witness :
    ∃ resp, siteverify demoServer 7 (formRequest "key-a" "tok-3" "9.9.9.9") =
        (some (StatusOK, resp), demoServer) ∧
      resp.Success = false ∧ resp.ErrorCodes = ["timeout-or-duplicate"] :=
  used_token_is_duplicate demoServer 7 (formRequest "key-a" "tok-3" "9.9.9.9") demoSiteA 2
    ⟨true, "", 120⟩ (by decide) (by decide) (by decide) (by decide) rfl

/-- C3: when the secret matches a registered site and the token is present and
unused in its table, the answer is success=true with no error code exactly
when the remote IP of the request is empty or equals the bound IP of the
record; in both cases the record is used afterwards. -/
theorem unused_token_is_consumed (s : Server) (now : Int) (r : Request) (site : Site) (p : Nat)
    (td : TokenData) (hwf : s.WF)
    (hs : s.getSiteByPrivateKey (r.FormValue "secret") = some site)
    (hl : site.lookup (r.FormValue "response") = some (some p))
    (hr : s.records[p]? = some td) (hu : td.Used = false) :
    ∃ resp s1, siteverify s now r = (some (StatusOK, resp), s1) ∧
      ((resp.Success = true ∧ resp.ErrorCodes = []) ↔
        (r.FormValue "remoteip" = "" ∨ r.FormValue "remoteip" = td.RemoteIP)) ∧
      s1.records[p]? = some { td with Used := true } := by
  refine ⟨_, _,
    siteverify_unused s now r site p td (wf_secret hwf hs) hs (wf_token hwf hs hl) hl hr hu,
    ?_, setUsed_records_self s p td hr⟩
  simp only [RecaptchaResponse.zero, decide_eq_true_eq, and_true]
  constructor
  · rintro (h | h)
    · exact Or.inl h
    · exact Or.inr h.symm
  · rintro (h | h)
    · exact Or.inl h
    · exact Or.inr h.symm

theorem unused_token_is_consumed_witness :
    ∃ resp s1, siteverify demoServer 7 (formRequest "key-a" "tok-2" "1.2.3.4") =
        (some (StatusOK, resp), s1) ∧
      ((resp.Success = true ∧ resp.ErrorCodes = []) ↔
        ((formRequest "key-a" "tok-2" "1.2.3.4").FormValue "remoteip" = "" ∨
          (formRequest "key-a" "tok-2" "1.2.3.4").FormValue "remoteip" = "1.2.3.4")) ∧
      s1.records[1]? = some ⟨true, "1.2.3.4", 120⟩ :=
  unused_token_is_consumed demoServer 7 (formRequest "key-a" "tok-2" "1.2.3.4") demoSiteA 1
    ⟨false, "1.2.3.4", 120⟩ (by decide) (by decide) (by decide) (by decide) rfl

/-- C4, as stated, fails: an unbound, present, unused token presented with the
non-empty remote IP 9.9.9.9 is answered success=false, with no error code. -/
theorem unbound_token_refuses_remote_ip :
    demoServer.WF ∧
    demoServer.getSiteByPrivateKey ((formRequest "key-a" "tok-1" "9.9.9.9").FormValue "secret") =
      some demoSiteA ∧
    demoSiteA.lookup ((formRequest "key-a" "tok-1" "9.9.9.9").FormValue "response") =
      some (some 0) ∧
    demoServer.records[0]? = some ⟨false, "", 120⟩ ∧
    siteverify demoServer 7 (formRequest "key-a" "tok-1" "9.9.9.9") =
      (some (StatusOK,
        { Success := false, Score := 0, Action := "", ChallengeTS := 7, Hostname := "",
          ErrorCodes := [] }),
        demoServer.setUsed 0) := by
  decide

/-- C4, amended: an unbound token that is present and unused in the site
matched by the secret is answered success=true exactly when the request
carries no remote IP; with a non-empty remote IP the answer is success=false.
No error code is given either way. -/
theorem unbound_token_accepts_no_remote_ip (s : Server) (now : Int) (r : Request) (site : Site)
    (p : Nat) (td : TokenData) (hwf : s.WF)
    (hs : s.getSiteByPrivateKey (r.FormValue "secret") = some site)
    (hl : site.lookup (r.FormValue "response") = some (some p))
    (hr : s.records[p]? = some td) (hu : td.Used = false) (hip : td.RemoteIP = "") :
    ∃ resp s1, siteverify s now r = (some (StatusOK, resp), s1) ∧
      resp.ErrorCodes = [] ∧ (resp.Success = true ↔ r.FormValue "remoteip" = "") := by
  refine ⟨_, _,
    siteverify_unused s now r site p td (wf_secret hwf hs) hs (wf_token hwf hs hl) hl hr hu,
    rfl, ?_⟩
  simp only [hip, decide_eq_true_eq]
  constructor
  · rintro (h | h)
    · exact h
    · exact h.symm
  · exact Or.inl

theorem unbound_token_accepts_no_remote_ip_witness :
    ∃ resp s1, siteverify demoServer 7 (formRequest "key-a" "tok-1" "") =
        (some (StatusOK, resp), s1) ∧
      resp.ErrorCodes = [] ∧
      (resp.Success = true ↔ (formRequest "key-a" "tok-1" "").FormValue "remoteip" = "") :=
  unbound_token_accepts_no_remote_ip demoServer 7 (formRequest "key-a" "tok-1" "") demoSiteA 0
    ⟨false, "", 120⟩ (by decide) (by decide) (by decide) (by decide) rfl rfl

/-- C5: a token bound to an IP and still unused, presented with the secret of
its site and a non-empty remote IP other than the bound one, is answered
success=false with no error code, and is consumed: the next verification of
the same token, with the bound IP, is answered success=false with the error
codes exactly "timeout-or-duplicate". -/
theorem wrong_ip_consumes_token (s : Server) (n1 n2 : Int) (r1 r2 : Request) (site : Site)
    (p : Nat) (td : TokenData) (hwf : s.WF)
    (hs : s.getSiteByPrivateKey (r1.FormValue "secret") = some site)
    (hl : site.lookup (r1.FormValue "response") = some (some p))
    (hr : s.records[p]? = some td) (hu : td.Used = false)
    (hy : r1.FormValue "remoteip" ≠ "") (hxy : r1.FormValue "remoteip" ≠ td.RemoteIP)
    (h2s : r2.FormValue "secret" = r1.FormValue "secret")
    (h2t : r2.FormValue "response" = r1.FormValue "response")
    (_h2ip : r2.FormValue "remoteip" = td.RemoteIP) :
    ∃ resp1 resp2,
      (serve s [(n1, r1), (n2, r2)]).1 = [some (StatusOK, resp1), some (StatusOK, resp2)] ∧
      resp1.Success = false ∧ resp1.ErrorCodes = [] ∧
      resp2.Success = false ∧ resp2.ErrorCodes = ["timeout-or-duplicate"] := by
  have hk := wf_secret hwf hs
  have ht := wf_token hwf hs hl
  have e1 := siteverify_unused s n1 r1 site p td hk hs ht hl hr hu
  have hs2 : (s.setUsed p).getSiteByPrivateKey (r2.FormValue "secret") = some site := by
    rw [h2s]; exact hs
  have e2 := siteverify_used (s.setUsed p) n2 r2 site p { td with Used := true }
    (by rw [h2s]; exact hk) hs2 (by rw [h2t]; exact ht) (by rw [h2t]; exact hl)
    (setUsed_records_self s p td hr) rfl
  refine ⟨{ RecaptchaResponse.zero with
      ChallengeTS := n1
      Success := decide (r1.FormValue "remoteip" = "" ∨ td.RemoteIP = r1.FormValue "remoteip") },
    failure n2 "timeout-or-duplicate", ?_, ?_, rfl, rfl, rfl⟩
  · simp only [serve, e1, e2]
  · have hxy1 : ¬ td.RemoteIP = r1.FormValue "remoteip" := fun e => hxy e.symm
    simp [hy, hxy1]

theorem wrong_ip_consumes_token_witness :
    ∃ resp1 resp2,
      (serve demoServer [(7, formRequest "key-a" "tok-2" "9.9.9.9"),
        (8, formRequest "key-a" "tok-2" "1.2.3.4")]).1 =
          [some (StatusOK, resp1), some (StatusOK, resp2)] ∧
      resp1.Success = false ∧ resp1.ErrorCodes = [] ∧
      resp2.Success = false ∧ resp2.ErrorCodes = ["timeout-or-duplicate"] :=
  wrong_ip_consumes_token demoServer 7 8 (formRequest "key-a" "tok-2" "9.9.9.9")
    (formRequest "key-a" "tok-2" "1.2.3.4") demoSiteA 1 ⟨false, "1.2.3.4", 120⟩
    (by decide) (by decide) (by decide) (by decide) rfl (by decide) (by decide)
    (by decide) (by decide) (by decide)

/-! ## The error branches -/

/-- C6: for every state and every request whose form parses and whose secret
field is absent or empty, the answer is success=false with the error codes
exactly "missing-input-secret", hence not "invalid-input-secret", whatever the
other fields hold, and the state is unchanged. -/
theorem missing_secret_is_reported (s : Server) (now : Int) (r : Request) (form : url.Values)
    (hF : r.Form = some form) (hk : r.FormValue "secret" = "") :
    ∃ resp, siteverify s now r = (some (StatusOK, resp), s) ∧
      resp.Success = false ∧ resp.ErrorCodes = ["missing-input-secret"] ∧
      "invalid-input-secret" ∉ resp.ErrorCodes :=
  ⟨failure now "missing-input-secret", siteverify_missing_secret s now r form hF hk, rfl, rfl,
    by simp [failure]⟩

theorem missing_secret_is_reported_witness :
    ∃ resp, siteverify demoServer 7
        ⟨"application/x-www-form-urlencoded", some [("response", ["tok-1"])]⟩ =
        (some (StatusOK, resp), demoServer) ∧
      resp.Success = false ∧ resp.ErrorCodes = ["missing-input-secret"] ∧
      "invalid-input-secret" ∉ resp.ErrorCodes :=
  missing_secret_is_reported demoServer 7
    ⟨"application/x-www-form-urlencoded", some [("response", ["tok-1"])]⟩
    [("response", ["tok-1"])] rfl (by decide)

/-- C7: for every state and every request whose secret is not empty and is the
private key of no registered site, the answer is success=false with the error
codes exactly "invalid-input-secret", whatever the response token is, and the
state is unchanged. -/
theorem unknown_secret_is_reported (s : Server) (now : Int) (r : Request)
    (hk : r.FormValue "secret" ≠ "")
    (hno : ∀ site ∈ s.sites, site.PrivateKey ≠ r.FormValue "secret") :
    ∃ resp, siteverify s now r = (some (StatusOK, resp), s) ∧
      resp.Success = false ∧ resp.ErrorCodes = ["invalid-input-secret"] :=
  ⟨failure now "invalid-input-secret",
    siteverify_invalid_secret s now r hk (getSite_none hno), rfl, rfl⟩

theorem unknown_secret_is_reported_witness :
    ∃ resp, siteverify demoServer 7 (formRequest "key-z" "tok-1" "") =
        (some (StatusOK, resp), demoServer) ∧
      resp.Success = false ∧ resp.ErrorCodes = ["invalid-input-secret"] :=
  unknown_secret_is_reported demoServer 7 (formRequest "key-z" "tok-1" "") (by decide)
    (by decide)

/-- C8: when the secret matches a registered site and the response token is
not empty and is no key of the table of that site, the answer is success=false
with the error codes exactly "invalid-input-response" and the state is
unchanged; a table that is still nil has no key, and reading it does not fail. -/
theorem unknown_token_is_reported (s : Server) (now : Int) (r : Request) (site : Site)
    (hwf : s.WF)
    (hs : s.getSiteByPrivateKey (r.FormValue "secret") = some site)
    (ht : r.FormValue "response" ≠ "")
    (hl : ∀ m, site.tokens = some m → m.lookup (r.FormValue "response") = none) :
    ∃ resp, siteverify s now r = (some (StatusOK, resp), s) ∧
      resp.Success = false ∧ resp.ErrorCodes = ["invalid-input-response"] := by
  have hl1 : site.lookup (r.FormValue "response") = none := by
    unfold Site.lookup
    cases hm : site.tokens with
    | none => rfl
    | some m => exact hl m hm
  exact ⟨failure now "invalid-input-response",
    siteverify_invalid_response s now r site (wf_secret hwf hs) hs ht hl1, rfl, rfl⟩

theorem unknown_token_is_reported_witness :
    (NewServer "http://127.0.0.1:1").NewSite (.ok "pub-b") (.ok "key-b") =
      some (oneSiteServer, demoSiteB) ∧
    demoSiteB.tokens = none ∧
    ∃ resp, siteverify oneSiteServer 7 (formRequest "key-b" "tok-1" "") =
        (some (StatusOK, resp), oneSiteServer) ∧
      resp.Success = false ∧ resp.ErrorCodes = ["invalid-input-response"] :=
  ⟨rfl, rfl,
    unknown_token_is_reported oneSiteServer 7 (formRequest "key-b" "tok-1" "") demoSiteB
      (by decide) (by decide) (by decide) (by intro m hm; cases hm)⟩

/-- C9: for two sites A and B of one server, with different private keys (the
keys of the server being pairwise different), a token of A that is no key of
the table of B, presented with the secret of B, is answered success=false with
the error codes exactly "invalid-input-response", and the state is unchanged,
so the record of A stays unused: the next verification, with the secret of A
and no remote IP, is answered success=true. -/
theorem tokens_are_not_shared (s : Server) (n1 n2 : Int) (r1 r2 : Request) (A B : Site)
    (t : String) (p : Nat) (td : TokenData) (hwf : s.WF) (hd : s.KeysDistinct)
    (hA : A ∈ s.sites) (hB : B ∈ s.sites) (_hAB : A.PrivateKey ≠ B.PrivateKey)
    (hlA : A.lookup t = some (some p)) (hr : s.records[p]? = some td) (hu : td.Used = false)
    (hlB : B.lookup t = none)
    (h1s : r1.FormValue "secret" = B.PrivateKey) (h1t : r1.FormValue "response" = t)
    (h2s : r2.FormValue "secret" = A.PrivateKey) (h2t : r2.FormValue "response" = t)
    (h2ip : r2.FormValue "remoteip" = "") :
    ∃ resp1 resp2,
      siteverify s n1 r1 = (some (StatusOK, resp1), s) ∧
      resp1.Success = false ∧ resp1.ErrorCodes = ["invalid-input-response"] ∧
      (serve s [(n1, r1), (n2, r2)]).1 = [some (StatusOK, resp1), some (StatusOK, resp2)] ∧
      resp2.Success = true ∧ resp2.ErrorCodes = [] := by
  have hsA : s.getSiteByPrivateKey (r2.FormValue "secret") = some A := by
    rw [h2s]; exact getSite_of_distinct hd hA
  have hsB : s.getSiteByPrivateKey (r1.FormValue "secret") = some B := by
    rw [h1s]; exact getSite_of_distinct hd hB
  have hlA2 : A.lookup (r2.FormValue "response") = some (some p) := by rw [h2t]; exact hlA
  have ht2 := wf_token hwf hsA hlA2
  have ht1 : r1.FormValue "response" ≠ "" := by rw [h1t, ← h2t]; exact ht2
  have e1 := siteverify_invalid_response s n1 r1 B (wf_secret hwf hsB) hsB ht1
    (by rw [h1t]; exact hlB)
  have e2 := siteverify_unused s n2 r2 A p td (wf_secret hwf hsA) hsA ht2 hlA2 hr hu
  refine ⟨failure n1 "invalid-input-response",
    { RecaptchaResponse.zero with
      ChallengeTS := n2
      Success := decide (r2.FormValue "remoteip" = "" ∨ td.RemoteIP = r2.FormValue "remoteip") },
    e1, rfl, rfl, ?_, ?_, rfl⟩
  · simp only [serve, e1, e2]
  · simp [h2ip]

theorem tokens_are_not_shared_witness :
    ∃ resp1 resp2,
      siteverify demoServer 7 (formRequest "key-b" "tok-1" "") =
        (some (StatusOK, resp1), demoServer) ∧
      resp1.Success = false ∧ resp1.ErrorCodes = ["invalid-input-response"] ∧
      (serve demoServer [(7, formRequest "key-b" "tok-1" ""),
        (8, formRequest "key-a" "tok-1" "")]).1 =
          [some (StatusOK, resp1), some (StatusOK, resp2)] ∧
      resp2.Success = true ∧ resp2.ErrorCodes = [] :=
  tokens_are_not_shared demoServer 7 8 (formRequest "key-b" "tok-1" "")
    (formRequest "key-a" "tok-1" "") demoSiteA demoSiteB "tok-1" 0 ⟨false, "", 120⟩
    (by decide) (by decide) (by decide) (by decide) (by decide) (by decide) (by decide) rfl
    (by decide) (by decide) (by decide) (by decide) (by decide) (by decide)

/-! ## The handler and the shape of a result -/

/-- Every answer of the closure is a failure with one of the six codes, or a
result without error code; the status is always 200. -/
theorem siteverify_reply (s : Server) (now : Int) (r : Request) :
    (siteverify s now r).1 = none ∨
    (∃ code ∈ errorCodes, (siteverify s now r).1 = some (StatusOK, failure now code)) ∨
    (∃ b, (siteverify s now r).1 =
      some (StatusOK, { RecaptchaResponse.zero with ChallengeTS := now, Success := b })) := by
  cases hF : r.Form with
  | none =>
    rw [siteverify_bad_request s now r hF]
    exact Or.inr (Or.inl ⟨_, by decide, rfl⟩)
  | some form =>
    by_cases hk : r.FormValue "secret" = ""
    · rw [siteverify_missing_secret s now r form hF hk]
      exact Or.inr (Or.inl ⟨_, by decide, rfl⟩)
    · cases hs : s.getSiteByPrivateKey (r.FormValue "secret") with
      | none =>
        rw [siteverify_invalid_secret s now r hk hs]
        exact Or.inr (Or.inl ⟨_, by decide, rfl⟩)
      | some site =>
        by_cases ht : r.FormValue "response" = ""
        · rw [siteverify_missing_response s now r site hk hs ht]
          exact Or.inr (Or.inl ⟨_, by decide, rfl⟩)
        · cases hl : site.lookup (r.FormValue "response") with
          | none =>
            rw [siteverify_invalid_response s now r site hk hs ht hl]
            exact Or.inr (Or.inl ⟨_, by decide, rfl⟩)
          | some ptr =>
            cases hd : s.deref ptr with
            | none =>
              rw [siteverify_panic s now r site ptr hk hs ht hl hd]
              exact Or.inl rfl
            | some td =>
              cases ptr with
              | none => simp [Server.deref] at hd
              | some p =>
                simp only [Server.deref] at hd
                cases hu : td.Used with
                | true =>
                  rw [siteverify_used s now r site p td hk hs ht hl hd hu]
                  exact Or.inr (Or.inl ⟨_, by decide, rfl⟩)
                | false =>
                  rw [siteverify_unused s now r site p td hk hs ht hl hd hu]
                  exact Or.inr (Or.inr ⟨_, rfl⟩)

theorem siteverify_status (s : Server) (now : Int) (r : Request) (c : Nat)
    (resp : RecaptchaResponse) (h : (siteverify s now r).1 = some (c, resp)) :
    c = StatusOK := by
  rcases siteverify_reply s now r with h1 | ⟨code, _, h1⟩ | ⟨b, h1⟩
  · rw [h1] at h; cases h
  · rw [h1] at h; cases h; rfl
  · rw [h1] at h; cases h; rfl

/-- C13: a request whose Content-Type is not exactly
"application/x-www-form-urlencoded" is answered with status 400 and no body,
and the state, with every token record, is unchanged; a request with that
Content-Type, whenever the closure builds a result and the result encodes, is
answered with status 200 and the encoded result, whatever the outcome. -/
theorem handler_status (marshal : RecaptchaResponse → Except String String)
    (s : Server) (now : Int) (r : Request) :
    (r.ContentType ≠ "application/x-www-form-urlencoded" →
      handler marshal s now r = (some { status := 400, body := none }, s)) ∧
    (r.ContentType = "application/x-www-form-urlencoded" →
      ∀ c resp payload, (siteverify s now r).1 = some (c, resp) →
        marshal resp = .ok payload →
        handler marshal s now r =
          (some { status := 200, body := some payload }, (siteverify s now r).2)) := by
  constructor
  · intro h
    simp [handler, h, StatusBadRequest]
  · intro h c resp payload hv hm
    have hc := siteverify_status s now r c resp hv
    subst hc
    have hpair : siteverify s now r = (some (StatusOK, resp), (siteverify s now r).2) := by
      rw [← hv]
    unfold handler
    rw [hpair]
    simp [h, hm, StatusOK]

theorem handler_status_witness :
    handler demoMarshal demoServer 7 ⟨"text/plain", some [("secret", ["key-a"])]⟩ =
      (some { status := 400, body := none }, demoServer) ∧
    handler demoMarshal demoServer 7 (formRequest "key-a" "tok-3" "") =
      (some { status := 200, body := some "false" },
        (siteverify demoServer 7 (formRequest "key-a" "tok-3" "")).2) :=
  ⟨(handler_status demoMarshal demoServer 7 ⟨"text/plain", some [("secret", ["key-a"])]⟩).1
      (by decide),
    (handler_status demoMarshal demoServer 7 (formRequest "key-a" "tok-3" "")).2 rfl
      StatusOK (failure 7 "timeout-or-duplicate") "false" (by decide) rfl⟩

/-- C20: a result built by the closure carries at most one error code, the
code is one of "bad-request", "missing-input-secret", "invalid-input-secret",
"missing-input-response", "invalid-input-response", "timeout-or-duplicate",
and a result with success=true carries none. -/
theorem result_error_codes (s : Server) (now : Int) (r : Request) (c : Nat)
    (resp : RecaptchaResponse) (h : (siteverify s now r).1 = some (c, resp)) :
    resp.ErrorCodes.length ≤ 1 ∧
    (∀ code ∈ resp.ErrorCodes, code ∈
      ["bad-request", "missing-input-secret", "invalid-input-secret", "missing-input-response",
        "invalid-input-response", "timeout-or-duplicate"]) ∧
    (resp.Success = true → resp.ErrorCodes = []) := by
  rcases siteverify_reply s now r with h1 | ⟨code, hcode, h1⟩ | ⟨b, h1⟩
  · rw [h1] at h; cases h
  · rw [h1] at h
    cases h
    refine ⟨by simp [failure], ?_, by simp [failure]⟩
    intro x hx
    simp only [failure, List.mem_singleton] at hx
    subst hx
    exact hcode
  · rw [h1] at h
    cases h
    exact ⟨by simp [RecaptchaResponse.zero], by simp [RecaptchaResponse.zero], fun _ => rfl⟩

theorem result_error_codes_witness :
    (failure 7 "invalid-input-secret").ErrorCodes.length ≤ 1 ∧
    (∀ code ∈ (failure 7 "invalid-input-secret").ErrorCodes, code ∈
      ["bad-request", "missing-input-secret", "invalid-input-secret", "missing-input-response",
        "invalid-input-response", "timeout-or-duplicate"]) ∧
    ((failure 7 "invalid-input-secret").Success = true →
      (failure 7 "invalid-input-secret").ErrorCodes = []) :=
  result_error_codes demoServer 7 (formRequest "key-z" "tok-1" "") StatusOK
    (failure 7 "invalid-input-secret") (by decide)

/-! ## Expiration dates -/

/-- The branch the closure takes, with the conditions that select it. -/
theorem siteverify_cases (s : Server) (now : Int) (r : Request) :
    (r.Form = none ∧ siteverify s now r = (some (StatusOK, failure now "bad-request"), s)) ∨
    (r.Form ≠ none ∧ r.FormValue "secret" = "" ∧
      siteverify s now r = (some (StatusOK, failure now "missing-input-secret"), s)) ∨
    (r.FormValue "secret" ≠ "" ∧ s.getSiteByPrivateKey (r.FormValue "secret") = none ∧
      siteverify s now r = (some (StatusOK, failure now "invalid-input-secret"), s)) ∨
    (r.FormValue "secret" ≠ "" ∧
      ∃ site, s.getSiteByPrivateKey (r.FormValue "secret") = some site ∧
        ((r.FormValue "response" = "" ∧
            siteverify s now r = (some (StatusOK, failure now "missing-input-response"), s)) ∨
         (r.FormValue "response" ≠ "" ∧
            ((site.lookup (r.FormValue "response") = none ∧
                siteverify s now r =
                  (some (StatusOK, failure now "invalid-input-response"), s)) ∨
             ∃ ptr, site.lookup (r.FormValue "response") = some ptr ∧
               ((s.deref ptr = none ∧ siteverify s now r = (none, s)) ∨
                ∃ p td, ptr = some p ∧ s.records[p]? = some td ∧
                  ((td.Used = true ∧
                      siteverify s now r =
                        (some (StatusOK, failure now "timeout-or-duplicate"), s)) ∨
                   (td.Used = false ∧
                      siteverify s now r =
                        (some (StatusOK,
                          { RecaptchaResponse.zero with
                            ChallengeTS := now
                            Success := decide (r.FormValue "remoteip" = "" ∨
                              td.RemoteIP = r.FormValue "remoteip") }),
                          s.setUsed p)))))))) := by
  cases hF : r.Form with
  | none => exact Or.inl ⟨rfl, siteverify_bad_request s now r hF⟩
  | some form =>
    by_cases hk : r.FormValue "secret" = ""
    · exact Or.inr (Or.inl ⟨by simp, hk, siteverify_missing_secret s now r form hF hk⟩)
    · cases hs : s.getSiteByPrivateKey (r.FormValue "secret") with
      | none => exact Or.inr (Or.inr (Or.inl ⟨hk, rfl, siteverify_invalid_secret s now r hk hs⟩))
      | some site =>
        refine Or.inr (Or.inr (Or.inr ⟨hk, site, rfl, ?_⟩))
        by_cases ht : r.FormValue "response" = ""
        · exact Or.inl ⟨ht, siteverify_missing_response s now r site hk hs ht⟩
        · refine Or.inr ⟨ht, ?_⟩
          cases hl : site.lookup (r.FormValue "response") with
          | none => exact Or.inl ⟨rfl, siteverify_invalid_response s now r site hk hs ht hl⟩
          | some ptr =>
            refine Or.inr ⟨ptr, rfl, ?_⟩
            cases hd : s.deref ptr with
            | none => exact Or.inl ⟨rfl, siteverify_panic s now r site ptr hk hs ht hl hd⟩
            | some td =>
              cases ptr with
              | none => simp [Server.deref] at hd
              | some p =>
                simp only [Server.deref] at hd
                refine Or.inr ⟨p, td, rfl, hd, ?_⟩
                cases hu : td.Used with
                | true => exact Or.inl ⟨rfl, siteverify_used s now r site p td hk hs ht hl hd hu⟩
                | false =>
                  exact Or.inr ⟨rfl, siteverify_unused s now r site p td hk hs ht hl hd hu⟩

theorem setUsed_records_ne (s : Server) (p q : Nat) (h : q ≠ p) :
    (s.setUsed p).records[q]? = s.records[q]? := by
  have hpq : ¬ p = q := fun e => h e.symm
  simp only [Server.setUsed, List.getElem?_modify, hpq, if_false]
  cases s.records[q]? <;> rfl

theorem setUsed_ne (s : Server) (p : Nat) (td : TokenData)
    (hr : s.records[p]? = some td) (hu : td.Used = false) : s.setUsed p ≠ s := by
  intro h
  have h1 := setUsed_records_self s p td hr
  rw [h, hr] at h1
  have h2 := congrArg TokenData.Used (Option.some.inj h1)
  rw [hu] at h2
  cases h2

theorem eraseExpiration_records (s : Server) (p : Nat) :
    s.eraseExpiration.records[p]? =
      (s.records[p]?).map (fun td => { td with ExpirationDate := 0 }) := by
  simp [Server.eraseExpiration, List.getElem?_map]

theorem eraseExpiration_deref_none (s : Server) (ptr : Option Nat) (h : s.deref ptr = none) :
    s.eraseExpiration.deref ptr = none := by
  cases ptr with
  | none => rfl
  | some p =>
    simp only [Server.deref] at h ⊢
    rw [eraseExpiration_records, h]
    rfl

theorem eraseExpiration_setUsed (s : Server) (p : Nat) :
    s.eraseExpiration.setUsed p = (s.setUsed p).eraseExpiration := by
  have hrec : (s.eraseExpiration.setUsed p).records = (s.setUsed p).eraseExpiration.records := by
    apply List.ext_getElem?
    intro q
    simp only [Server.setUsed, Server.eraseExpiration, List.getElem?_modify, List.getElem?_map]
    cases s.records[q]? with
    | none => rfl
    | some td => by_cases hpq : p = q <;> simp [hpq]
  simp only [Server.setUsed, Server.eraseExpiration] at hrec ⊢
  rw [hrec]

/-- Putting the expiration dates to zero before or after a request is the same. -/
theorem siteverify_eraseExpiration (s : Server) (now : Int) (r : Request) :
    siteverify s.eraseExpiration now r =
      ((siteverify s now r).1, (siteverify s now r).2.eraseExpiration) := by
  have hsite : ∀ k, s.eraseExpiration.getSiteByPrivateKey k = s.getSiteByPrivateKey k :=
    fun _ => rfl
  rcases siteverify_cases s now r with ⟨hF, e⟩ | ⟨hF, hk, e⟩ | ⟨hk, hs, e⟩ |
    ⟨hk, site, hs, ⟨ht, e⟩ | ⟨ht, ⟨hl, e⟩ | ⟨ptr, hl, ⟨hd, e⟩ | ⟨p, td, hp, hr, ⟨hu, e⟩ | ⟨hu, e⟩⟩⟩⟩⟩
  · rw [e, siteverify_bad_request _ now r hF]
  · obtain ⟨form, hF1⟩ := Option.ne_none_iff_exists'.mp hF
    rw [e, siteverify_missing_secret _ now r form hF1 hk]
  · rw [e, siteverify_invalid_secret _ now r hk ((hsite _).trans hs)]
  · rw [e, siteverify_missing_response _ now r site hk ((hsite _).trans hs) ht]
  · rw [e, siteverify_invalid_response _ now r site hk ((hsite _).trans hs) ht hl]
  · rw [e, siteverify_panic _ now r site ptr hk ((hsite _).trans hs) ht hl
      (eraseExpiration_deref_none s ptr hd)]
  · subst hp
    have hr1 : s.eraseExpiration.records[p]? = some { td with ExpirationDate := 0 } := by
      rw [eraseExpiration_records, hr]; rfl
    rw [e, siteverify_used _ now r site p _ hk ((hsite _).trans hs) ht hl hr1 hu]
  · subst hp
    have hr1 : s.eraseExpiration.records[p]? = some { td with ExpirationDate := 0 } := by
      rw [eraseExpiration_records, hr]; rfl
    rw [e, siteverify_unused _ now r site p _ hk ((hsite _).trans hs) ht hl hr1 hu,
      eraseExpiration_setUsed]

/-- C12: the expiration date of a token record has no influence on a
verification: from two states that differ only in the expiration dates of
their records, every request gets the same answer (status, success flag,
error codes) and is followed by states that again differ only in the
expiration dates, so the same record, if any, became used. -/
theorem expiration_is_ignored (s s' : Server) (now : Int) (r : Request)
    (h : s.eraseExpiration = s'.eraseExpiration) :
    (siteverify s now r).1 = (siteverify s' now r).1 ∧
    (siteverify s now r).2.eraseExpiration = (siteverify s' now r).2.eraseExpiration := by
  have h1 := siteverify_eraseExpiration s now r
  have h2 := siteverify_eraseExpiration s' now r
  rw [h, h2] at h1
  exact ⟨(congrArg Prod.fst h1).symm, (congrArg Prod.snd h1).symm⟩

theorem expiration_is_ignored_witness :
    (siteverify demoServer 7 (formRequest "key-a" "tok-2" "1.2.3.4")).1 =
      (siteverify demoServerLate 7 (formRequest "key-a" "tok-2" "1.2.3.4")).1 ∧
    (siteverify demoServer 7 (formRequest "key-a" "tok-2" "1.2.3.4")).2.eraseExpiration =
      (siteverify demoServerLate 7 (formRequest "key-a" "tok-2" "1.2.3.4")).2.eraseExpiration :=
  expiration_is_ignored demoServer demoServerLate 7 (formRequest "key-a" "tok-2" "1.2.3.4")
    (by decide)

/-! ## What a request changes, and the order of the checks -/

theorem setUsed_frame (s : Server) (p q : Nat) (td : TokenData)
    (h : s.records[q]? = some td) :
    ∃ td1, (s.setUsed p).records[q]? = some td1 ∧ td1.RemoteIP = td.RemoteIP ∧
      td1.ExpirationDate = td.ExpirationDate ∧ (td.Used = true → td1.Used = true) := by
  by_cases hqp : q = p
  · subst hqp
    exact ⟨_, setUsed_records_self s q td h, rfl, rfl, fun _ => rfl⟩
  · exact ⟨td, by rw [setUsed_records_ne s p q hqp, h], rfl, rfl, id⟩

/-- C19: handling a request adds or removes no site and no token, changes no
key, bound IP or expiration date, and turns no used flag from true to false.
The state changes exactly when the secret matches a site and the token is
present and unused in the table of that site, and then the one change is that
the used flag of that record becomes true. -/
theorem verification_frame (s : Server) (now : Int) (r : Request) (hwf : s.WF) :
    (siteverify s now r).2.URL = s.URL ∧
    (siteverify s now r).2.sites = s.sites ∧
    (siteverify s now r).2.records.length = s.records.length ∧
    (∀ (q : Nat) (td : TokenData), s.records[q]? = some td →
      ∃ td1 : TokenData, (siteverify s now r).2.records[q]? = some td1 ∧
        td1.RemoteIP = td.RemoteIP ∧ td1.ExpirationDate = td.ExpirationDate ∧
        (td.Used = true → td1.Used = true)) ∧
    ((siteverify s now r).2 ≠ s ↔
      ∃ (site : Site) (p : Nat) (td : TokenData),
        s.getSiteByPrivateKey (r.FormValue "secret") = some site ∧
        site.lookup (r.FormValue "response") = some (some p) ∧
        s.records[p]? = some td ∧ td.Used = false) ∧
    (∀ (site : Site) (p : Nat) (td : TokenData),
      s.getSiteByPrivateKey (r.FormValue "secret") = some site →
      site.lookup (r.FormValue "response") = some (some p) →
      s.records[p]? = some td → td.Used = false →
      (siteverify s now r).2.records[p]? = some { td with Used := true } ∧
      ∀ q : Nat, q ≠ p → (siteverify s now r).2.records[q]? = s.records[q]?) := by
  have hchange : ∀ (site : Site) (p : Nat) (td : TokenData), s.getSiteByPrivateKey (r.FormValue "secret") = some site →
      site.lookup (r.FormValue "response") = some (some p) →
      s.records[p]? = some td → td.Used = false →
      (siteverify s now r).2 = s.setUsed p := by
    intro site p td hs hl hr hu
    rw [siteverify_unused s now r site p td (wf_secret hwf hs) hs (wf_token hwf hs hl) hl hr hu]
  refine ⟨?_, ?_, ?_, ?_, ⟨?_, ?_⟩, ?_⟩
  · rcases siteverify_state s now r with h | ⟨p, h⟩
    · rw [h]
    · rw [h]; rfl
  · rcases siteverify_state s now r with h | ⟨p, h⟩
    · rw [h]
    · rw [h]; rfl
  · rcases siteverify_state s now r with h | ⟨p, h⟩ <;> rw [h]
    simp [Server.setUsed, List.length_modify]
  · intro q td hq
    rcases siteverify_state s now r with h | ⟨p, h⟩ <;> rw [h]
    · exact ⟨td, hq, rfl, rfl, id⟩
    · exact setUsed_frame s p q td hq
  · intro hne
    rcases siteverify_cases s now r with ⟨_, e⟩ | ⟨_, _, e⟩ | ⟨_, _, e⟩ |
      ⟨hk, site, hs, ⟨ht, e⟩ | ⟨ht, ⟨hl, e⟩ | ⟨ptr, hl, ⟨hd, e⟩ |
        ⟨p, td, hp, hr, ⟨hu, e⟩ | ⟨hu, e⟩⟩⟩⟩⟩
    · rw [e] at hne; exact absurd rfl hne
    · rw [e] at hne; exact absurd rfl hne
    · rw [e] at hne; exact absurd rfl hne
    · rw [e] at hne; exact absurd rfl hne
    · rw [e] at hne; exact absurd rfl hne
    · rw [e] at hne; exact absurd rfl hne
    · rw [e] at hne; exact absurd rfl hne
    · subst hp
      exact ⟨site, p, td, hs, hl, hr, hu⟩
  · rintro ⟨site, p, td, hs, hl, hr, hu⟩
    rw [hchange site p td hs hl hr hu]
    exact setUsed_ne s p td hr hu
  · intro site p td hs hl hr hu
    rw [hchange site p td hs hl hr hu]
    exact ⟨setUsed_records_self s p td hr, fun q hq => setUsed_records_ne s p q hq⟩

theorem verification_frame_witness :
    (siteverify demoServer 7 (formRequest "key-a" "tok-1" "9.9.9.9")).2.sites =
      demoServer.sites ∧
    ((siteverify demoServer 7 (formRequest "key-a" "tok-1" "9.9.9.9")).2 ≠ demoServer ↔
      ∃ (site : Site) (p : Nat) (td : TokenData),
        demoServer.getSiteByPrivateKey
          ((formRequest "key-a" "tok-1" "9.9.9.9").FormValue "secret") = some site ∧
        site.lookup ((formRequest "key-a" "tok-1" "9.9.9.9").FormValue "response") =
          some (some p) ∧
        demoServer.records[p]? = some td ∧ td.Used = false) ∧
    (siteverify demoServer 7 (formRequest "key-a" "tok-1" "9.9.9.9")).2.records[0]? =
      some ⟨true, "", 120⟩ :=
  ⟨(verification_frame demoServer 7 (formRequest "key-a" "tok-1" "9.9.9.9") (by decide)).2.1,
    (verification_frame demoServer 7 (formRequest "key-a" "tok-1" "9.9.9.9")
      (by decide)).2.2.2.2.1,
    ((verification_frame demoServer 7 (formRequest "key-a" "tok-1" "9.9.9.9")
      (by decide)).2.2.2.2.2 demoSiteA 0 ⟨false, "", 120⟩ (by decide) (by decide) (by decide)
        rfl).1⟩

/-- C18: the checks are applied in the order missing secret, unknown secret,
missing response token, unknown token, used token, and the error codes of a
result are the code of the first check that fails (none when all pass).  So a
registered secret with an absent or empty response token gives exactly
"missing-input-response", a non-empty unregistered secret with an empty
response token gives exactly "invalid-input-secret", and an empty secret with
an empty response token gives exactly "missing-input-secret". -/
theorem checks_in_order (s : Server) (now : Int) (r : Request) :
    (r.Form ≠ none → ∀ c resp, (siteverify s now r).1 = some (c, resp) →
      resp.ErrorCodes = (specFirstFailure s r).toList) ∧
    (s.WF → ∀ site, s.getSiteByPrivateKey (r.FormValue "secret") = some site →
      r.FormValue "response" = "" →
      siteverify s now r = (some (StatusOK, failure now "missing-input-response"), s)) ∧
    (r.FormValue "secret" ≠ "" → (∀ site ∈ s.sites, site.PrivateKey ≠ r.FormValue "secret") →
      r.FormValue "response" = "" →
      siteverify s now r = (some (StatusOK, failure now "invalid-input-secret"), s)) ∧
    (r.Form ≠ none → r.FormValue "secret" = "" → r.FormValue "response" = "" →
      siteverify s now r = (some (StatusOK, failure now "missing-input-secret"), s)) := by
  refine ⟨?_, ?_, ?_, ?_⟩
  · intro hF c resp h
    rcases siteverify_cases s now r with ⟨hF0, _⟩ | ⟨_, hk, e⟩ | ⟨hk, hs, e⟩ |
      ⟨hk, site, hs, ⟨ht, e⟩ | ⟨ht, ⟨hl, e⟩ | ⟨ptr, hl, ⟨hd, e⟩ |
        ⟨p, td, hp, hr, ⟨hu, e⟩ | ⟨hu, e⟩⟩⟩⟩⟩
    · exact absurd hF0 hF
    · rw [e] at h; cases h
      simp [specFirstFailure, specChecks, hk, failure]
    · rw [e] at h; cases h
      simp [specFirstFailure, specChecks, hk, hs, failure]
    · rw [e] at h; cases h
      simp [specFirstFailure, specChecks, hk, hs, ht, failure]
    · rw [e] at h; cases h
      simp [specFirstFailure, specChecks, hk, hs, ht, hl, failure]
    · rw [e] at h; cases h
    · subst hp
      rw [e] at h; cases h
      simp [specFirstFailure, specChecks, hk, hs, ht, hl, Server.deref, hr, hu, failure]
    · subst hp
      rw [e] at h; cases h
      simp [specFirstFailure, specChecks, hk, hs, ht, hl, Server.deref, hr, hu,
        RecaptchaResponse.zero]
  · intro hwf site hs ht
    exact siteverify_missing_response s now r site (wf_secret hwf hs) hs ht
  · intro hk hno _
    exact siteverify_invalid_secret s now r hk (getSite_none hno)
  · intro hF hk _
    obtain ⟨form, hF1⟩ := Option.ne_none_iff_exists'.mp hF
    exact siteverify_missing_secret s now r form hF1 hk

theorem checks_in_order_witness :
    (failure 7 "timeout-or-duplicate").ErrorCodes =
      (specFirstFailure demoServer (formRequest "key-a" "tok-3" "")).toList ∧
    siteverify demoServer 7 (formRequest "key-a" "" "") =
      (some (StatusOK, failure 7 "missing-input-response"), demoServer) ∧
    siteverify demoServer 7 (formRequest "key-z" "" "") =
      (some (StatusOK, failure 7 "invalid-input-secret"), demoServer) ∧
    siteverify demoServer 7 (formRequest "" "" "") =
      (some (StatusOK, failure 7 "missing-input-secret"), demoServer) :=
  ⟨(checks_in_order demoServer 7 (formRequest "key-a" "tok-3" "")).1 (by decide) StatusOK
      (failure 7 "timeout-or-duplicate") (by decide),
    (checks_in_order demoServer 7 (formRequest "key-a" "" "")).2.1 (by decide) demoSiteA
      (by decide) (by decide),
    (checks_in_order demoServer 7 (formRequest "key-z" "" "")).2.2.1 (by decide) (by decide)
      (by decide),
    (checks_in_order demoServer 7 (formRequest "" "" "")).2.2.2 (by decide) (by decide)
      (by decide)⟩

/-! ## Issuing a token -/

theorem mapStore_lookup_self (m : List (String × Option Nat)) (t : String) (ptr : Option Nat) :
    (mapStore m t ptr).lookup t = some ptr := by
  simp [mapStore, List.lookup_cons]

theorem mapStore_lookup_ne (m : List (String × Option Nat)) (t t2 : String) (ptr : Option Nat)
    (h : t2 ≠ t) : (mapStore m t ptr).lookup t2 = m.lookup t2 := by
  have hb : (t2 == t) = false := by simp [h]
  simp only [mapStore, List.lookup_cons, hb]
  exact lookup_filter_ne m t2 t h

/-- What issuing a token does to the site at index `i` and to the records. -/
theorem NewResponseTokenRemoteIP_spec (s : Server) (i : Nat) (site : Site) (now : Int)
    (x t : String) (hsite : s.sites[i]? = some site) :
    ∃ (s1 : Server) (site1 : Site) (p : Nat),
      s.NewResponseTokenRemoteIP i now x (.ok t) = some (s1, t) ∧
      s1.sites[i]? = some site1 ∧
      site1.lookup t = some (some p) ∧
      s1.records[p]? = some { Used := false, RemoteIP := x, ExpirationDate := now + twoMinutes } ∧
      (∀ t2 : String, t2 ≠ t → site1.lookup t2 = site.lookup t2) ∧
      (∀ (q : Nat) (td : TokenData), s.records[q]? = some td → s1.records[q]? = some td) := by
  have hi : i < s.sites.length := (List.getElem?_eq_some.mp hsite).1
  let td : TokenData := { Used := false, RemoteIP := x, ExpirationDate := now + twoMinutes }
  let tokens : List (String × Option Nat) :=
    match site.tokens with
    | none => []
    | some m => m
  let site1 : Site := { site with tokens := some (mapStore tokens t (some s.records.length)) }
  refine ⟨{ s with records := s.records ++ [td], sites := s.sites.set i site1 }, site1,
    s.records.length, ?_, ?_, ?_, ?_, ?_, ?_⟩
  · simp only [Server.NewResponseTokenRemoteIP, Server.GenerateToken, hsite, Site.GenerateToken]
  · exact List.getElem?_set_self hi
  · simp only [Site.lookup]
    exact mapStore_lookup_self _ t _
  · exact List.getElem?_concat_length s.records _
  · intro t2 ht2
    simp only [Site.lookup]
    rw [mapStore_lookup_ne _ t t2 _ ht2]
    show List.lookup t2 (match site.tokens with
      | none => []
      | some m => m) = _
    cases site.tokens <;> rfl
  · intro q td hq
    have hlt : q < s.records.length := (List.getElem?_eq_some.mp hq).1
    show (s.records ++ _)[q]? = some td
    rw [List.getElem?_append_left hlt]
    exact hq

/-- C16: on a registered site, `NewResponseTokenRemoteIP(x)` returns the new
token t and leaves the table of the site mapping t to a record with Used=false
and bound IP x, every other entry of the table and every earlier record being
as before; `NewResponseToken()` does the same with an empty bound IP.  The
table may have been nil before the call. -/
theorem new_token_is_recorded (s : Server) (i : Nat) (site : Site) (now : Int)
    (x t : String) (hsite : s.sites[i]? = some site) :
    (∃ (s1 : Server) (site1 : Site) (p : Nat) (td : TokenData),
      s.NewResponseTokenRemoteIP i now x (.ok t) = some (s1, t) ∧
      s1.sites[i]? = some site1 ∧
      site1.lookup t = some (some p) ∧ s1.records[p]? = some td ∧
      td.Used = false ∧ td.RemoteIP = x ∧
      (∀ t2 : String, t2 ≠ t → site1.lookup t2 = site.lookup t2) ∧
      (∀ (q : Nat) (td0 : TokenData), s.records[q]? = some td0 → s1.records[q]? = some td0)) ∧
    (∃ (s1 : Server) (site1 : Site) (p : Nat) (td : TokenData),
      s.NewResponseToken i now (.ok t) = some (s1, t) ∧
      s1.sites[i]? = some site1 ∧
      site1.lookup t = some (some p) ∧ s1.records[p]? = some td ∧
      td.Used = false ∧ td.RemoteIP = "" ∧
      (∀ t2 : String, t2 ≠ t → site1.lookup t2 = site.lookup t2) ∧
      (∀ (q : Nat) (td0 : TokenData), s.records[q]? = some td0 → s1.records[q]? = some td0)) := by
  constructor
  · obtain ⟨s1, site1, p, h1, h2, h3, h4, h5, h6⟩ :=
      NewResponseTokenRemoteIP_spec s i site now x t hsite
    exact ⟨s1, site1, p, _, h1, h2, h3, h4, rfl, rfl, h5, h6⟩
  · obtain ⟨s1, site1, p, h1, h2, h3, h4, h5, h6⟩ :=
      NewResponseTokenRemoteIP_spec s i site now "" t hsite
    exact ⟨s1, site1, p, _, h1, h2, h3, h4, rfl, rfl, h5, h6⟩

theorem new_token_is_recorded_witness :
    (∃ (s1 : Server) (site1 : Site) (p : Nat) (td : TokenData),
      oneSiteServer.NewResponseTokenRemoteIP 0 7 "1.2.3.4" (.ok "tok-9") = some (s1, "tok-9") ∧
      s1.sites[0]? = some site1 ∧
      site1.lookup "tok-9" = some (some p) ∧ s1.records[p]? = some td ∧
      td.Used = false ∧ td.RemoteIP = "1.2.3.4" ∧
      (∀ t2 : String, t2 ≠ "tok-9" → site1.lookup t2 = demoSiteB.lookup t2) ∧
      (∀ (q : Nat) (td0 : TokenData),
        oneSiteServer.records[q]? = some td0 → s1.records[q]? = some td0)) ∧
    (∃ (s1 : Server) (site1 : Site) (p : Nat) (td : TokenData),
      oneSiteServer.NewResponseToken 0 7 (.ok "tok-9") = some (s1, "tok-9") ∧
      s1.sites[0]? = some site1 ∧
      site1.lookup "tok-9" = some (some p) ∧ s1.records[p]? = some td ∧
      td.Used = false ∧ td.RemoteIP = "" ∧
      (∀ t2 : String, t2 ≠ "tok-9" → site1.lookup t2 = demoSiteB.lookup t2) ∧
      (∀ (q : Nat) (td0 : TokenData),
        oneSiteServer.records[q]? = some td0 → s1.records[q]? = some td0)) :=
  new_token_is_recorded oneSiteServer 0 demoSiteB 7 "1.2.3.4" "tok-9" (by decide)

end recaptchatest

namespace recaptcha

/-! ## The verifier -/

/-- C10: for every verifier, every response token and every behaviour of the
transport and of the remote endpoint, `Verify(response)` returns what
`VerifyRemoteIP("", response)` returns, the success flag and the error, and
leaves the world in the same state. -/
theorem Verify_eq_VerifyRemoteIP {σ : Type} (T : Transport σ) (r : Recaptcha) (w : σ)
    (response : String) :
    Verify T r w response = VerifyRemoteIP T r w "" response :=
  rfl

/-- The four ways `check` fails, each with the error of the failing call, and
the one way it succeeds. -/
theorem check_outcomes {σ : Type} (T : Transport σ) (r : Recaptcha) (w : σ)
    (remoteIP response : String) :
    (∀ err : String,
      T.NewRequest "POST" (checkVerifyEndpoint r)
        (T.Encode (checkPostParameters r remoteIP response)) = .error err →
      check T r w remoteIP response = (.error err, w)) ∧
    (∀ req : HttpRequest,
      T.NewRequest "POST" (checkVerifyEndpoint r)
        (T.Encode (checkPostParameters r remoteIP response)) = .ok req →
      (∀ (err : String) (w1 : σ),
        T.Do w { req with
          Header := req.Header.Set "Content-Type" "application/x-www-form-urlencoded" } =
            (.error err, w1) →
        check T r w remoteIP response = (.error err, w1)) ∧
      (∀ (httpResponse : HttpResponse) (w1 : σ),
        T.Do w { req with
          Header := req.Header.Set "Content-Type" "application/x-www-form-urlencoded" } =
            (.ok httpResponse, w1) →
        (∀ err : String, httpResponse.Body = .error err →
          check T r w remoteIP response = (.error err, w1)) ∧
        (∀ contents : String, httpResponse.Body = .ok contents →
          (∀ err : String, T.Unmarshal contents RecaptchaResponse.zero = .error err →
            check T r w remoteIP response = (.error err, w1)) ∧
          (∀ res : RecaptchaResponse, T.Unmarshal contents RecaptchaResponse.zero = .ok res →
            check T r w remoteIP response = (.ok res, w1))))) := by
  refine ⟨fun err h => by simp only [check, h], fun req hreq => ⟨?_, ?_⟩⟩
  · intro err w1 hdo
    simp only [check, hreq, hdo]
  · intro httpResponse w1 hdo
    refine ⟨fun err hb => by simp only [check, hreq, hdo, hb], fun contents hb => ⟨?_, ?_⟩⟩
    · intro err hu
      simp only [check, hreq, hdo, hb, hu]
    · intro res hu
      simp only [check, hreq, hdo, hb, hu]

/-- C11: when the underlying check fails, with whatever error (building the
request, the transport, reading the body or decoding the JSON), `Verify` and
`VerifyRemoteIP` return success=false together with that error; when it does
not fail they return a nil error and the success flag of the decoded result,
whatever its other fields hold. -/
theorem Verify_follows_check {σ : Type} (T : Transport σ) (r : Recaptcha) (w : σ)
    (remoteIP response : String) :
    (∀ (err : String) (w1 : σ), check T r w remoteIP response = (.error err, w1) →
      VerifyRemoteIP T r w remoteIP response = ((false, some err), w1)) ∧
    (∀ (res : RecaptchaResponse) (w1 : σ), check T r w remoteIP response = (.ok res, w1) →
      VerifyRemoteIP T r w remoteIP response = ((res.Success, none), w1)) ∧
    (∀ (err : String) (w1 : σ), check T r w "" response = (.error err, w1) →
      Verify T r w response = ((false, some err), w1)) ∧
    (∀ (res : RecaptchaResponse) (w1 : σ), check T r w "" response = (.ok res, w1) →
      Verify T r w response = ((res.Success, none), w1)) := by
  refine ⟨?_, ?_, ?_, ?_⟩
  · intro err w1 h
    simp only [VerifyRemoteIP, h]
  · intro res w1 h
    simp only [VerifyRemoteIP, h]
  · intro err w1 h
    simp only [Verify, h]
  · intro res w1 h
    simp only [Verify, h]

theorem Verify_follows_check_witness :
    Verify demoTransport bogusRecaptcha 0 "some-token" =
      ((false, some "unsupported protocol scheme"), 1) ∧
    VerifyRemoteIP demoTransport bogusRecaptcha 0 "1.2.3.4" "some-token" =
      ((false, some "unsupported protocol scheme"), 1) ∧
    VerifyRemoteIP demoTransport (New "my-private-key") 0 "1.2.3.4" "some-token" =
      ((false, none), 1) :=
  ⟨(Verify_follows_check demoTransport bogusRecaptcha 0 "" "some-token").2.2.1
      "unsupported protocol scheme" 1 rfl,
    (Verify_follows_check demoTransport bogusRecaptcha 0 "1.2.3.4" "some-token").1
      "unsupported protocol scheme" 1 rfl,
    (Verify_follows_check demoTransport (New "my-private-key") 0 "1.2.3.4" "some-token").2.1
      { RecaptchaResponse.zero with
        Success := false, Score := 7, ErrorCodes := ["invalid-input-secret"] } 1 rfl⟩

/-- C14: `New(k)` stores k unchanged as the private key and leaves the
endpoint empty; a check on an instance with an empty endpoint targets
`DefaultVerifyEndpoint`, a check on an instance with a non-empty endpoint
targets that value, and the outcome of a check depends on the transport only
through the request built for that target. -/
theorem New_and_endpoint (k : String) (r : Recaptcha) :
    (New k).PrivateKey = k ∧ (New k).VerifyEndpoint = "" ∧
    (r.VerifyEndpoint = "" → checkVerifyEndpoint r = DefaultVerifyEndpoint) ∧
    (r.VerifyEndpoint ≠ "" → checkVerifyEndpoint r = r.VerifyEndpoint) ∧
    (∀ (σ : Type) (T T1 : Transport σ) (w : σ) (remoteIP response : String),
      T.Encode = T1.Encode → T.Do = T1.Do → T.Unmarshal = T1.Unmarshal →
      (∀ body : String, T.NewRequest "POST" (checkVerifyEndpoint r) body =
        T1.NewRequest "POST" (checkVerifyEndpoint r) body) →
      check T r w remoteIP response = check T1 r w remoteIP response) := by
  refine ⟨rfl, rfl, ?_, ?_, ?_⟩
  · intro h
    simp [checkVerifyEndpoint, h]
  · intro h
    simp [checkVerifyEndpoint, h]
  · intro σ T T1 w remoteIP response hE hD hU hN
    simp only [check, hE, hD, hU, hN]

theorem New_and_endpoint_witness :
    checkVerifyEndpoint (New "my-key") = "https://www.google.com/recaptcha/api/siteverify" ∧
    checkVerifyEndpoint bogusRecaptcha = "0.0.0.1/bogus/path" :=
  ⟨(New_and_endpoint "my-key" (New "my-key")).2.2.1 rfl,
    (New_and_endpoint "my-key" bogusRecaptcha).2.2.2.1 (by decide)⟩

/-- C15: the form parameters built by `check` are "secret", holding the
private key, "response", holding the token, and, exactly when the remote IP
is not empty, "remoteip", holding the remote IP; there is no other
parameter. -/
theorem post_parameters (r : Recaptcha) (remoteIP response : String) :
    (checkPostParameters r remoteIP response =
      if remoteIP ≠ "" then
        [("remoteip", [remoteIP]), ("response", [response]), ("secret", [r.PrivateKey])]
      else [("response", [response]), ("secret", [r.PrivateKey])]) ∧
    (∀ key : String, (checkPostParameters r remoteIP response).lookup key =
      if key = "secret" then some [r.PrivateKey]
      else if key = "response" then some [response]
      else if key = "remoteip" ∧ remoteIP ≠ "" then some [remoteIP]
      else none) := by
  have hlist : checkPostParameters r remoteIP response =
      if remoteIP ≠ "" then
        [("remoteip", [remoteIP]), ("response", [response]), ("secret", [r.PrivateKey])]
      else [("response", [response]), ("secret", [r.PrivateKey])] := by
    by_cases h : remoteIP = ""
    · simp [checkPostParameters, url.Values.Set, h]
    · simp [checkPostParameters, url.Values.Set, h]
  refine ⟨hlist, ?_⟩
  intro key
  rw [hlist]
  by_cases h : remoteIP = ""
  · by_cases h1 : key = "secret"
    · subst h1; simp [h, List.lookup_cons]
    · by_cases h2 : key = "response"
      · subst h2; simp [h, List.lookup_cons]
      · have b1 : (key == "secret") = false := by simp [h1]
        have b2 : (key == "response") = false := by simp [h2]
        simp [h, h1, h2, List.lookup_cons, b1, b2]
  · by_cases h1 : key = "secret"
    · subst h1; simp [h, List.lookup_cons]
    · by_cases h2 : key = "response"
      · subst h2; simp [h, List.lookup_cons]
      · by_cases h3 : key = "remoteip"
        · subst h3; simp [h, List.lookup_cons]
        · have b1 : (key == "secret") = false := by simp [h1]
          have b2 : (key == "response") = false := by simp [h2]
          have b3 : (key == "remoteip") = false := by simp [h3]
          simp [h, h1, h2, h3, List.lookup_cons, b1, b2, b3]

end recaptcha
